import Mathlib

/-!
Shallow embedding of the `cap-cv` frame-capture repository
(`src/recorder/camera.py`, `src/recorder/utils.py`) and proofs of the
spec claims about it.

Modelling conventions:
* Wall-clock times and intervals are rationals (`ℚ`); Python's `float`
  arithmetic on small time values is modelled exactly.
* The OpenCV device world is an explicit environment: a predicate saying
  which `cv2.VideoCapture` calls open, and which `/dev/video*` paths exist.
* Exceptions that the Python code catches are modelled by the explicit
  control flow of the corresponding `except` branch; a fallible public
  operation returns `Option`.
* `releaseCount` is a ghost counter incremented exactly where the source
  executes `cap.release()`; it makes "no double release" statable.
-/

/-- A camera identifier: the Python code accepts an integer index or a
platform-specific string name. -/
inductive CameraId where
  | int (n : Int)
  | str (s : String)
deriving DecidableEq, Repr

/-- Python `str(camera_id)`: decimal rendering of an int, identity on str. -/
def CameraId.toStr : CameraId → String
  | .int n => toString n
  | .str s => s

/-- Python `str.replace(old, new)` restricted to a single-character
pattern and replacement, which is a per-character map. -/
def replaceChar (old new : Char) (s : String) : String :=
  ⟨s.data.map fun c => if c = old then new else c⟩

/-- `str(camera_id).replace(" ", "_").replace(":", "_")` from
`CameraCapture.__init__` (camera.py line 27). -/
def safeCameraName (cid : CameraId) : String :=
  replaceChar ':' '_' (replaceChar ' ' '_' cid.toStr)

/-- The platform detected once at import time (`platform.system()`
branches in camera.py/utils.py). -/
inductive Platform where
  | windows
  | linux
  | other
deriving DecidableEq, Repr

/-- `get_platform_backend` (utils.py lines 56-64). -/
def get_platform_backend : Platform → String
  | .windows => "DirectShow"
  | .linux => "V4L2"
  | .other => "AVFoundation"

/-- The option dict built by `CameraCapture._get_format_options`
(camera.py lines 154-167): keys `video_size` and `framerate`. -/
structure FormatOptions where
  video_size : Option String
  framerate : Option String
deriving DecidableEq, Repr

/-- `CameraCapture._get_format_options` (camera.py lines 154-167): always
`video_size = 1920x1080`, `framerate = str(self.fps)`; the `dshow` /
`avfoundation` branches never fire because `get_platform_backend` returns
capitalised names, and the `dshow` branch would not change the dict anyway. -/
def get_format_options (fps : Nat) (input_format : String) : FormatOptions :=
  let options : FormatOptions :=
    { video_size := some "1920x1080", framerate := some (toString fps) }
  if input_format = "dshow" then
    { options with video_size := some "1920x1080" }
  else
    options

/-- The mutable state of one `CameraCapture` object (camera.py lines 23-42),
plus the ghost field `releaseCount` counting `cap.release()` calls. -/
structure CameraState where
  camera_id : CameraId
  output_dir : String
  fps : Nat
  use_mock_mode : Bool
  is_running : Bool
  /-- `true` iff `self.cap` currently holds a `VideoCapture` object
  (`None` in Python corresponds to `false`). -/
  cap : Bool
  frame_count : Nat
  mock_mode : Bool
  mock_width : Nat
  mock_height : Nat
  releaseCount : Nat
deriving DecidableEq, Repr

namespace CameraCapture

/-- `CameraCapture.__init__` (camera.py lines 23-42): the output directory is
`output_dir / ("camera_" ++ safe name)`; mock fields default to 1280×720. -/
def init (camera_id : CameraId) (output_dir : String) (fps : Nat)
    (use_mock_mode : Bool) : CameraState :=
  { camera_id := camera_id
    output_dir := output_dir ++ "/camera_" ++ safeCameraName camera_id
    fps := fps
    use_mock_mode := use_mock_mode
    is_running := false
    cap := false
    frame_count := 0
    mock_mode := false
    mock_width := 1280
    mock_height := 720
    releaseCount := 0 }

/-- Number of entries in `option_attempts` (camera.py lines 93-104):
six option sets for the DirectShow backend (Windows), otherwise the single
`base_options` entry. -/
def numAttempts (p : Platform) : Nat :=
  if get_platform_backend p = "DirectShow" then 6 else 1

/-- Python `str.split(sep)` for a single-character separator, over the
character list of the string. -/
def splitOnChar (sep : Char) : List Char → List (List Char)
  | [] => [[]]
  | a :: t =>
    let r := splitOnChar sep t
    if a = sep then [] :: r
    else
      match r with
      | h :: rs => (a :: h) :: rs
      | [] => [[a]]

/-- The value of a decimal digit character, `none` on a non-digit. -/
def digitVal (c : Char) : Option Nat :=
  if c.toNat ≥ 48 ∧ c.toNat ≤ 57 then some (c.toNat - 48) else none

/-- Python `int(s)` on a non-negative decimal literal: `none` models the
raised `ValueError` on an empty string or a non-digit character. -/
def parseNat (l : List Char) : Option Nat :=
  if l.isEmpty then none
  else
    l.foldl
      (fun acc c =>
        match acc, digitVal c with
        | some n, some d => some (n * 10 + d)
        | _, _ => none)
      (some 0)

/-- Python `w, h = size.split('x'); int(w); int(h)` (camera.py lines 134-136):
`none` models the caught exception when the split does not give exactly
two decimal parts. -/
def parseSize (s : String) : Option (Nat × Nat) :=
  match splitOnChar 'x' s.data with
  | [w, h] =>
    match parseNat w, parseNat h with
    | some wn, some hn => some (wn, hn)
    | _, _ => none
  | _ => none

/-- The open-attempt loop of `CameraCapture.start` (camera.py lines 107-122)
over the outcome of each `cv2.VideoCapture` call: on the first successful
open the handle is kept, `is_running` is set and the loop returns `true`;
each failed attempt releases the just-created handle
(`if self.cap: self.cap.release(); self.cap = None`) and continues.
Returns `none` when every attempt failed. -/
def startLoop (outcomes : List Bool) (s : CameraState) : Option CameraState :=
  match outcomes with
  | [] => none
  | b :: rest =>
    if b then
      some { s with cap := true, is_running := true }
    else
      startLoop rest { s with cap := false, releaseCount := s.releaseCount + 1 }

/-- `CameraCapture.start` (camera.py lines 76-143). `attemptOpens i` says
whether the `i`-th `cv2.VideoCapture(device_id)` call reports `isOpened()`.
After the loop exhausts, the code sets `is_running = True` unconditionally
(line 126) before checking `use_mock_mode`; with fallback allowed it enters
mock mode and overwrites the mock size from
`_get_format_options(...).get('video_size', '1280x720')` (lines 131-138),
otherwise it returns `False` (line 130) with `is_running` left `True`. -/
def start (attemptOpens : Nat → Bool) (p : Platform) (s : CameraState) :
    Bool × CameraState :=
  let outcomes := (List.range (numAttempts p)).map attemptOpens
  match startLoop outcomes s with
  | some s' => (true, s')
  | none =>
    let s₁ := { s with is_running := true,
                       releaseCount := s.releaseCount + numAttempts p }
    if s₁.use_mock_mode then
      let s₂ := { s₁ with mock_mode := true }
      let sizeStr :=
        (get_format_options s₂.fps (get_platform_backend p)).video_size.getD
          "1280x720"
      let s₃ :=
        match parseSize sizeStr with
        | some (w, h) => { s₂ with mock_width := w, mock_height := h }
        | none => s₂
      (true, s₃)
    else
      (false, s₁)

/-- `CameraCapture.stop` (camera.py lines 169-175): clear `is_running`,
and release the handle only if one is held. -/
def stop (s : CameraState) : CameraState :=
  let s₁ := { s with is_running := false }
  if s₁.cap then
    { s₁ with cap := false, releaseCount := s₁.releaseCount + 1 }
  else
    s₁

/-- A captured image as the claims see it: pixel dimensions and channel
count (a PIL `RGB` image has 3 channels). -/
structure Frame where
  width : Nat
  height : Nat
  channels : Nat
deriving DecidableEq, Repr

/-- The device-side outcome of one `self.cap.read()` call: `none` models
`ret == False` or a raised exception; `some f` a successfully read frame. -/
structure CaptureEnv where
  read : Option Frame
deriving DecidableEq, Repr

/-- `cv2.cvtColor(frame, cv2.COLOR_BGR2RGB)` then `Image.fromarray`
(camera.py lines 199-200): a colour-order swap, dimensions and channel
count unchanged. -/
def cvtColorBGR2RGB (f : Frame) : Frame := f

/-- `CameraCapture.capture_frame` (camera.py lines 177-205): `None` when not
running; in mock mode a fresh random `RGB` image of `mock_width ×
mock_height` (`Image.frombytes` cannot fail here because exactly
`w*h*3` bytes are supplied); otherwise one device read — `self.cap` being
`None` raises `AttributeError`, which the `except` of lines 203-204
turns into `None`, as does `ret == False` or any read exception. -/
def capture_frame (env : CaptureEnv) (s : CameraState) : Option Frame :=
  if !s.is_running then
    none
  else if s.mock_mode then
    some { width := s.mock_width, height := s.mock_height, channels := 3 }
  else if s.cap then
    match env.read with
    | some f => some (cvtColorBGR2RGB f)
    | none => none
  else
    none

/-- The filename built by `CameraCapture.save_frame` (camera.py lines
209-213): `camera_<id>_<timestamp>_mocked_<user>.jpg` in mock mode,
without `_mocked` otherwise. `timestamp` is the caller-supplied rendering
of `datetime.now().strftime("%Y%m%d_%H%M%S_%f")[:-3]`. -/
def saveFilename (cid : CameraId) (mock : Bool) (timestamp user_name : String) :
    String :=
  if mock then
    "camera_" ++ cid.toStr ++ "_" ++ timestamp ++ "_mocked_" ++ user_name
      ++ ".jpg"
  else
    "camera_" ++ cid.toStr ++ "_" ++ timestamp ++ "_" ++ user_name ++ ".jpg"

/-- `CameraCapture.save_frame` (camera.py lines 207-220): builds
`filepath = self.output_dir / filename`, writes the JPEG, increments
`frame_count`, and returns the Python tuple
`(str(filepath), self.mock_mode)`. -/
def save_frame (timestamp user_name : String) (s : CameraState) :
    (String × Bool) × CameraState :=
  let filepath :=
    s.output_dir ++ "/" ++ saveFilename s.camera_id s.mock_mode timestamp user_name
  ((filepath, s.mock_mode), { s with frame_count := s.frame_count + 1 })

/-- `CameraCapture.capture_save_frame` (camera.py lines 222-229): `None`
when not running or when `capture_frame` returned `None`, otherwise the
result of `save_frame`. -/
def capture_save_frame (env : CaptureEnv) (timestamp user_name : String)
    (s : CameraState) : Option (String × Bool) × CameraState :=
  if !s.is_running then
    (none, s)
  else
    match capture_frame env s with
    | none => (none, s)
    | some _ =>
      let r := save_frame timestamp user_name s
      (some r.1, r.2)

end CameraCapture

namespace RecorderUtils

/-- `_maintain_fps` (utils.py lines 17-20), with the call to `time.time()`
made explicit as `now`: returns the duration passed to `time.sleep`, or
`none` when no sleep happens. -/
def maintain_fps_sleep (now loop_start_time frame_interval : ℚ) : Option ℚ :=
  let elapsed := now - loop_start_time
  if elapsed < frame_interval then some (frame_interval - elapsed) else none

/-- `should_stop` (utils.py lines 23-24):
`duration is not None and (time.time() - start_time) >= duration`. -/
def should_stop (now start_time : ℚ) (duration : Option ℤ) : Bool :=
  match duration with
  | none => false
  | some d => decide ((d : ℚ) ≤ now - start_time)

/-- The OpenCV device world: `opens i` says whether `cv2.VideoCapture`
reports `isOpened()` for device index `i` (equivalently for the path
`/dev/video{i}` on Linux, which names the same device), and `devExists i`
whether `os.path.exists(f"/dev/video{i}")` holds. -/
structure DeviceEnv where
  opens : Int → Bool
  devExists : Int → Bool

/-- `list_windows_cameras` (utils.py lines 67-81): probe indices 0-9 with
open+release, collecting those that open. -/
def list_windows_cameras (env : DeviceEnv) : List Int :=
  (List.range 10).filterMap fun i =>
    if env.opens i then some (i : Int) else none

/-- `list_available_cameras` (utils.py lines 84-114): Windows defers to
`list_windows_cameras`; Linux probes only the `/dev/video{i}` paths that
exist; other platforms probe indices 0-9 directly. -/
def list_available_cameras (p : Platform) (env : DeviceEnv) : List Int :=
  match p with
  | .windows => list_windows_cameras env
  | .linux =>
    (List.range 10).filterMap fun i =>
      if env.devExists i && env.opens i then some (i : Int) else none
  | .other =>
    (List.range 10).filterMap fun i =>
      if env.opens i then some (i : Int) else none

/-- `resolve_windows_camera_name` (utils.py lines 142-176) restricted to
integer identifiers (the string branch converts to an integer first): test
the identifier itself, then fall back to probing indices 0-9, returning
the first that opens; `None` when nothing opens. -/
def resolve_windows_camera_name (env : DeviceEnv) (camera_id : Int) :
    Option Int :=
  if env.opens camera_id then
    some camera_id
  else
    ((List.range 10).find? fun i => env.opens i).map fun i => (i : Int)

/-- `find_available_camera_from_list` (utils.py lines 117-139) over integer
identifiers (`int(camera_id)` is the identity on them): on Windows,
return the first identifier whose `resolve_windows_camera_name` result is
non-`None`; elsewhere, return the first identifier that opens directly;
if the whole list fails, fall back to
`available_cameras[0] if available_cameras else None`. -/
def find_available_camera_from_list (p : Platform) (env : DeviceEnv)
    (camera_ids : List Int) : Option Int :=
  let phase1 : Option Int :=
    if p = .windows then
      camera_ids.findSome? fun cid => resolve_windows_camera_name env cid
    else
      camera_ids.find? fun cid => env.opens cid
  match phase1 with
  | some c => some c
  | none => (list_available_cameras p env).head?

/-- Modelled from the spec (claim C6's reading of the Device Resolver
contract, spec §4.1): first identifier in priority order that opens;
otherwise the first of the probed candidate indices 0-9 that opens;
otherwise `None`. Used only to compare against
`find_available_camera_from_list`. -/
def specResolverResult (env : DeviceEnv) (camera_ids : List Int) :
    Option Int :=
  match camera_ids.find? (fun cid => env.opens cid) with
  | some c => some c
  | none => ((List.range 10).find? fun i => env.opens i).map fun i => (i : Int)

end RecorderUtils

section HelperLemmas

open CameraCapture RecorderUtils

/-- A successful open-attempt loop leaves the session running with a held
handle and does not touch the mock-related or configuration fields. -/
theorem startLoop_some (outcomes : List Bool) (s s' : CameraState)
    (h : startLoop outcomes s = some s') :
    s'.is_running = true ∧ s'.cap = true ∧
    s'.use_mock_mode = s.use_mock_mode ∧ s'.mock_mode = s.mock_mode ∧
    s'.mock_width = s.mock_width ∧ s'.mock_height = s.mock_height := by
  induction outcomes generalizing s with
  | nil => simp [startLoop] at h
  | cons b rest ih =>
    by_cases hb : b = true
    · subst hb
      simp [startLoop] at h
      subst h
      simp
    · simp at hb
      subst hb
      simp [startLoop] at h
      simpa using ih _ h

/-- When every attempt outcome is a failure, the open-attempt loop
returns `none`. -/
theorem startLoop_all_false (outcomes : List Bool) (s : CameraState)
    (h : ∀ b ∈ outcomes, b = false) :
    startLoop outcomes s = none := by
  induction outcomes generalizing s with
  | nil => rfl
  | cons b rest ih =>
    have hb : b = false := h b (by simp)
    subst hb
    simp [startLoop]
    exact ih _ fun x hx => h x (by simp [hx])

/-- The `video_size` option handed to the mock fallback is `1920x1080` on
every platform. -/
theorem video_size_getD (p : Platform) (fps : Nat) :
    ((get_format_options fps (get_platform_backend p)).video_size).getD
      "1280x720" = "1920x1080" := by
  cases p <;> rfl

/-- The mock fallback parses `1920x1080` successfully. -/
theorem parseSize_1920x1080 : parseSize "1920x1080" = some (1920, 1080) := by
  decide

/-- The head of a `filterMap` keeping exactly the elements satisfying `q`
is the image of the first element satisfying `q`. -/
theorem head?_filterMap_find? {α β : Type} (l : List α) (q : α → Bool)
    (f : α → β) :
    (l.filterMap fun a => if q a then some (f a) else none).head? =
      (l.find? q).map f := by
  induction l with
  | nil => rfl
  | cons a t ih =>
    by_cases h : q a <;> simp [List.filterMap_cons, List.find?_cons, h, ih]

/-- An open-attempt list containing a success makes the loop succeed. -/
theorem startLoop_exists_true (outcomes : List Bool) (s : CameraState)
    (h : true ∈ outcomes) :
    ∃ s', startLoop outcomes s = some s' := by
  induction outcomes generalizing s with
  | nil => simp at h
  | cons b rest ih =>
    by_cases hb : b = true
    · subst hb
      exact ⟨_, rfl⟩
    · simp at hb
      subst hb
      simp at h
      obtain ⟨s', hs'⟩ := ih { s with cap := false,
                                      releaseCount := s.releaseCount + 1 } h
      exact ⟨s', by simp [startLoop, hs']⟩

/-- Characterization of `start` when every open attempt fails: the session
is marked running in both branches; with fallback allowed it enters mock
mode at the parsed 1920×1080 size and the call returns `true`; with
fallback disallowed the call returns `false`. -/
theorem start_all_fail (attemptOpens : Nat → Bool) (p : Platform)
    (s : CameraState)
    (h : ∀ i, i < numAttempts p → attemptOpens i = false) :
    start attemptOpens p s =
      if s.use_mock_mode then
        (true, { s with is_running := true,
                        releaseCount := s.releaseCount + numAttempts p,
                        mock_mode := true,
                        mock_width := 1920, mock_height := 1080 })
      else
        (false, { s with is_running := true,
                         releaseCount := s.releaseCount + numAttempts p }) := by
  have hloop :
      startLoop ((List.range (numAttempts p)).map attemptOpens) s = none := by
    apply startLoop_all_false
    intro b hb
    simp [List.mem_map, List.mem_range] at hb
    obtain ⟨i, hi, rfl⟩ := hb
    exact h i hi
  by_cases hm : s.use_mock_mode = true
  · simp [start, hloop, hm, video_size_getD, parseSize_1920x1080]
  · simp at hm
    simp [start, hloop, hm]

end HelperLemmas

section ClaimTheorems

open CameraCapture RecorderUtils

/-- C1: for every session created with mock fallback allowed
(`use_mock_mode = true`), `start()` never returns a failure outcome: it
returns `true` and leaves the session running, and when every open-option
attempt fails the session has moreover entered mock mode. -/
theorem c1_start_with_mock_fallback_never_fails (attemptOpens : Nat → Bool)
    (p : Platform) (cid : CameraId) (output_dir : String) (fps : Nat) :
    (start attemptOpens p (init cid output_dir fps true)).1 = true ∧
    (start attemptOpens p (init cid output_dir fps true)).2.is_running = true ∧
    ((∀ i, i < numAttempts p → attemptOpens i = false) →
      (start attemptOpens p (init cid output_dir fps true)).2.mock_mode
        = true) := by
  by_cases hall : ∀ i, i < numAttempts p → attemptOpens i = false
  · rw [start_all_fail _ _ _ hall]
    simp [init]
  · push_neg at hall
    obtain ⟨i, hi, hft⟩ := hall
    have htrue :
        true ∈ (List.range (numAttempts p)).map attemptOpens := by
      simp [List.mem_map, List.mem_range]
      exact ⟨i, hi, by simpa using hft⟩
    obtain ⟨s', hs'⟩ := startLoop_exists_true _ (init cid output_dir fps true)
      htrue
    have hrun := (startLoop_some _ _ _ hs').1
    refine ⟨by simp [start, hs'], by simp [start, hs', hrun], fun hcontra => ?_⟩
    exact absurd (hcontra i hi) (by simpa using hft)

/-- Witness for C1 at a concrete session where every attempt fails. -/
theorem c1_start_with_mock_fallback_never_fails_witness :
    (start (fun _ => false) .linux (init (.int 0) "frames" 30 true)).1
        = true ∧
    (start (fun _ => false) .linux
        (init (.int 0) "frames" 30 true)).2.is_running = true ∧
    (start (fun _ => false) .linux
        (init (.int 0) "frames" 30 true)).2.mock_mode = true :=
  have h := c1_start_with_mock_fallback_never_fails (fun _ => false) .linux
    (.int 0) "frames" 30
  ⟨h.1, h.2.1, h.2.2 fun _ _ => rfl⟩

/-- C2 (code-bug evidence): with mock fallback disallowed and every open
attempt failing, `start()` returns `False` as claimed, but the session is
still running afterwards (`is_running = True`, set unconditionally on
camera.py line 126 before the `use_mock_mode` check), contradicting the
claimed terminal non-running Failed state. -/
theorem c2_start_without_fallback_leaves_running :
    (start (fun _ => false) .linux (init (.int 0) "frames" 30 false)).1
        = false ∧
    (start (fun _ => false) .linux
        (init (.int 0) "frames" 30 false)).2.is_running = true := by
  decide

/-- C5: `stop()` is idempotent — a second call changes nothing, in
particular it does not release the handle a second time — and after the
first call the session is stopped with no handle held. -/
theorem c5_stop_idempotent (s : CameraState) :
    stop (stop s) = stop s ∧
    (stop s).is_running = false ∧
    (stop s).cap = false ∧
    (stop (stop s)).releaseCount = (stop s).releaseCount := by
  unfold stop
  by_cases h : s.cap = true <;> simp [h]

/-- C7: with a positive target inter-frame interval, the pacer sleeps
exactly the remaining part of the interval when the iteration finished
early, sleeps nothing when the iteration took at least the full interval,
and never sleeps a non-positive duration. -/
theorem c7_maintain_fps_pacing (now loop_start frame_interval : ℚ)
    (_hpos : 0 < frame_interval) :
    (now - loop_start < frame_interval →
      maintain_fps_sleep now loop_start frame_interval =
        some (frame_interval - (now - loop_start))) ∧
    (frame_interval ≤ now - loop_start →
      maintain_fps_sleep now loop_start frame_interval = none) ∧
    (∀ d, maintain_fps_sleep now loop_start frame_interval = some d →
      0 < d) := by
  unfold maintain_fps_sleep
  refine ⟨fun h => by simp [h], fun h => by simp [not_lt.mpr h],
    fun d hd => ?_⟩
  by_cases h : now - loop_start < frame_interval
  · simp [h] at hd
    linarith [hd]
  · simp [h] at hd

/-- Witness for C7 at concrete times: an early iteration sleeps the
remainder, a late one does not sleep. -/
theorem c7_maintain_fps_pacing_witness :
    0 < (2 : ℚ) ∧
    maintain_fps_sleep 1 0 2 = some (2 - (1 - 0)) ∧
    maintain_fps_sleep 5 0 2 = none :=
  ⟨by norm_num,
   (c7_maintain_fps_pacing 1 0 2 (by norm_num)).1 (by norm_num),
   (c7_maintain_fps_pacing 5 0 2 (by norm_num)).2.1 (by norm_num)⟩

/-- C8: the duration check reports an elapsed budget exactly when a
duration is given and the elapsed wall-clock time is at least that
duration; with `duration = None` it always reports `false`. -/
theorem c8_should_stop_characterization (now start_time : ℚ) (d : ℤ) :
    should_stop now start_time none = false ∧
    (should_stop now start_time (some d) = true ↔
      (d : ℚ) ≤ now - start_time) :=
  ⟨rfl, by simp [should_stop]⟩

/-- C10: `capture_frame` is total — it returns a frame or `None` in every
state; it returns `None` when the session is not running, when no device
handle is held (the caught `AttributeError` on `self.cap.read()`), and
when the device read fails. -/
theorem c10_capture_frame_total (env : CaptureEnv) (s : CameraState) :
    (capture_frame env s = none ∨ ∃ f, capture_frame env s = some f) ∧
    (s.is_running = false → capture_frame env s = none) ∧
    (s.is_running = true → s.mock_mode = false → s.cap = false →
      capture_frame env s = none) ∧
    (s.is_running = true → s.mock_mode = false → s.cap = true →
      env.read = none → capture_frame env s = none) := by
  refine ⟨?_, ?_, ?_, ?_⟩
  · cases h : capture_frame env s
    · exact Or.inl rfl
    · exact Or.inr ⟨_, rfl⟩
  · intro h
    simp [capture_frame, h]
  · intro h1 h2 h3
    simp [capture_frame, h1, h2, h3]
  · intro h1 h2 h3 h4
    simp [capture_frame, h1, h2, h3, h4]

/-- Witness for C10: a freshly initialized (not yet running) session
yields `None` from `capture_frame`. -/
theorem c10_capture_frame_total_witness :
    capture_frame ⟨none⟩ (init (.int 1) "frames" 30 false) = none :=
  (c10_capture_frame_total ⟨none⟩ (init (.int 1) "frames" 30 false)).2.1 rfl

/-- C3 counterexample: a session that entered mock mode through `start()`'s
fallback produces 1920×1080 frames, not the claimed fixed default 1280×720
— the fallback overwrites the defaults from the `video_size` option
(camera.py lines 131-138). -/
theorem c3_mock_resolution_counterexample :
    (start (fun _ => false) .linux
        (init (.int 0) "frames" 30 true)).2.mock_mode = true ∧
    capture_frame ⟨none⟩
        (start (fun _ => false) .linux (init (.int 0) "frames" 30 true)).2 =
      some { width := 1920, height := 1080, channels := 3 } ∧
    ¬ ((start (fun _ => false) .linux
          (init (.int 0) "frames" 30 true)).2.mock_width = 1280 ∧
       (start (fun _ => false) .linux
          (init (.int 0) "frames" 30 true)).2.mock_height = 720) := by
  decide

/-- C3 amended: in any running mock-mode session, `capture_frame` returns an
image of exactly `mock_width × mock_height` pixels with 3 channels; those
fields are initialized to the default 1280×720, but a session that enters
mock mode through `start()`'s fallback has them overwritten to 1920×1080,
the parsed `video_size` option. -/
theorem c3_mock_frame_dimensions (env : CaptureEnv) (s : CameraState)
    (hrun : s.is_running = true) (hmock : s.mock_mode = true)
    (attemptOpens : Nat → Bool) (p : Platform) (cid : CameraId)
    (output_dir : String) (fps : Nat)
    (hall : ∀ i, i < numAttempts p → attemptOpens i = false) :
    capture_frame env s =
      some { width := s.mock_width, height := s.mock_height,
             channels := 3 } ∧
    (init cid output_dir fps true).mock_width = 1280 ∧
    (init cid output_dir fps true).mock_height = 720 ∧
    (start attemptOpens p (init cid output_dir fps true)).2.mock_width
        = 1920 ∧
    (start attemptOpens p (init cid output_dir fps true)).2.mock_height
        = 1080 := by
  refine ⟨by simp [capture_frame, hrun, hmock], rfl, rfl, ?_, ?_⟩ <;>
    rw [start_all_fail _ _ _ hall] <;> simp [init]

/-- Witness for C3's amended statement at a concrete fallen-back session. -/
theorem c3_mock_frame_dimensions_witness :
    capture_frame ⟨none⟩
        (start (fun _ => false) Platform.linux
          (init (.int 1) "frames" 30 true)).2 =
      some { width := (start (fun _ => false) Platform.linux
                        (init (.int 1) "frames" 30 true)).2.mock_width,
             height := (start (fun _ => false) Platform.linux
                        (init (.int 1) "frames" 30 true)).2.mock_height,
             channels := 3 } :=
  (c3_mock_frame_dimensions ⟨none⟩ _ (by decide) (by decide)
    (fun _ => false) .linux (.int 1) "frames" 30 (fun _ _ => rfl)).1

/-- C4 (code-bug evidence): `save_frame` returns the Python tuple
`(str(filepath), self.mock_mode)`, not the bare file path its `-> str`
annotation and the claim describe, and `capture_save_frame` propagates
that tuple. -/
theorem c4_save_frame_returns_pair :
    (save_frame "20250101_120000_000" "alice"
        (init (.int 0) "frames" 30 false)).1 =
      ("frames/camera_0/camera_0_20250101_120000_000_alice.jpg", false) ∧
    (capture_save_frame
        ⟨some { width := 640, height := 480, channels := 3 }⟩
        "20250101_120000_000" "alice"
        { init (.int 0) "frames" 30 false with
            is_running := true, cap := true }).1 =
      some ("frames/camera_0/camera_0_20250101_120000_000_alice.jpg",
        false) := by
  decide

/-- C6 counterexample: on Windows, with requested identifiers `[5, 7]` where
devices 2 and 7 open, the code returns camera 2 — the probe fallback runs
inside the resolution of the first identifier (utils.py lines 166-175) —
while the claimed two-phase policy would return the requested camera 7. -/
theorem c6_resolver_counterexample :
    find_available_camera_from_list .windows
        { opens := fun i => i == 2 || i == 7, devExists := fun _ => true }
        [5, 7] = some 2 ∧
    specResolverResult
        { opens := fun i => i == 2 || i == 7, devExists := fun _ => true }
        [5, 7] = some 7 := by
  decide

/-- C6 amended: on non-Windows platforms (where an openable index `i` has an
existing `/dev/video{i}` path), the resolver implements exactly the claimed
two-phase policy: first identifier in priority order that opens, else the
first probed index 0-9 that opens, else `None`. On Windows the 0-9 probe
already happens while resolving each individual identifier, so an
unopenable first identifier can preempt a later requested one. -/
theorem c6_resolver_two_phase (p : Platform) (env : DeviceEnv)
    (camera_ids : List Int) (hp : p ≠ .windows)
    (hex : ∀ i : Int, env.opens i = true → env.devExists i = true) :
    find_available_camera_from_list p env camera_ids =
      specResolverResult env camera_ids := by
  cases p with
  | windows => exact absurd rfl hp
  | linux =>
    have hfun : (fun x : Nat =>
        if env.devExists (x : Int) = true ∧ env.opens (x : Int) = true
        then some ((x : Int)) else none)
        = fun x : Nat =>
            if env.opens (x : Int) = true then some ((x : Int)) else none := by
      funext x
      by_cases h : env.opens (x : Int) = true
      · simp [h, hex _ h]
      · simp [h]
    simp only [find_available_camera_from_list, specResolverResult,
      list_available_cameras, head?_filterMap_find?]
    cases camera_ids.find? (fun cid => env.opens cid) <;> simp
    rw [hfun]
  | other =>
    simp only [find_available_camera_from_list, specResolverResult,
      list_available_cameras, head?_filterMap_find?]
    cases camera_ids.find? (fun cid => env.opens cid) <;> simp

/-- Witness for C6's amended statement on a concrete Linux device world. -/
theorem c6_resolver_two_phase_witness :
    find_available_camera_from_list .linux
        { opens := fun i => i == 3, devExists := fun i => i == 3 } [5] =
      specResolverResult
        { opens := fun i => i == 3, devExists := fun i => i == 3 } [5] :=
  c6_resolver_two_phase .linux
    { opens := fun i => i == 3, devExists := fun i => i == 3 } [5]
    (by decide) (fun _ h => h)

/-- C9 counterexample: two successive saves in the same millisecond collide
— the filename encodes the timestamp but no sequence number, so the claimed
uniqueness by timestamp+sequence fails within a session. -/
theorem c9_same_millisecond_collision :
    (save_frame "20250101_120000_000" "alice"
        (save_frame "20250101_120000_000" "alice"
          (start (fun _ => false) .linux
            (init (.int 0) "frames" 30 true)).2).2).1.1 =
      (save_frame "20250101_120000_000" "alice"
        (start (fun _ => false) .linux
          (init (.int 0) "frames" 30 true)).2).1.1 ∧
    (save_frame "20250101_120000_000" "alice"
        (save_frame "20250101_120000_000" "alice"
          (start (fun _ => false) .linux
            (init (.int 0) "frames" 30 true)).2).2).2.frame_count ≠
      (save_frame "20250101_120000_000" "alice"
        (start (fun _ => false) .linux
          (init (.int 0) "frames" 30 true)).2).2.frame_count := by
  decide

/-- C9 amended: every saved path has the form
`outputRoot/camera_<safeId>/camera_<id>_<timestamp>[_mocked]_<label>.jpg`
with `safeId` replacing spaces and colons by underscores and `_mocked`
present exactly in mock mode; within a session filenames are unique only
per millisecond timestamp (distinct timestamps give distinct paths), not by
timestamp+sequence — no sequence number appears in the name. -/
theorem c9_saved_path_form (s : CameraState) (ts ts' label : String)
    (cid : CameraId) (root : String) (fps : Nat) (m : Bool)
    (hne : ts ≠ ts') :
    (init cid root fps m).output_dir =
      root ++ "/camera_" ++ safeCameraName cid ∧
    (save_frame ts label s).1.1 =
      s.output_dir ++ "/" ++
        ("camera_" ++ s.camera_id.toStr ++ "_" ++ ts ++
          (if s.mock_mode then "_mocked_" else "_") ++ label ++ ".jpg") ∧
    (save_frame ts label s).1.1 ≠ (save_frame ts' label s).1.1 := by
  refine ⟨rfl, ?_, ?_⟩
  · by_cases h : s.mock_mode = true <;> simp [save_frame, saveFilename, h]
  · intro heq
    apply hne
    have hd := congrArg String.data heq
    by_cases h : s.mock_mode = true <;>
      simp [save_frame, saveFilename, h, String.data_append] at hd <;>
      exact String.ext hd

/-- Witness for C9's amended statement at concrete timestamps. -/
theorem c9_saved_path_form_witness :
    (init (.int 2) "frames" 30 false).output_dir =
      "frames" ++ "/camera_" ++ safeCameraName (.int 2) ∧
    (save_frame "a" "bob" (init (.int 2) "frames" 30 false)).1.1 =
      (init (.int 2) "frames" 30 false).output_dir ++ "/" ++
        ("camera_" ++ (init (.int 2) "frames" 30 false).camera_id.toStr
          ++ "_" ++ "a" ++
          (if (init (.int 2) "frames" 30 false).mock_mode then "_mocked_"
           else "_") ++ "bob" ++ ".jpg") ∧
    (save_frame "a" "bob" (init (.int 2) "frames" 30 false)).1.1 ≠
      (save_frame "b" "bob" (init (.int 2) "frames" 30 false)).1.1 :=
  c9_saved_path_form (init (.int 2) "frames" 30 false) "a" "b" "bob"
    (.int 2) "frames" 30 false (by decide)

end ClaimTheorems
